import Mathlib

/-!
Shallow embedding of the PytorchAulas notebooks (CIFAR10 tutorial):
transform pipeline, device transfer, sample visualization, the Net model
(shape semantics and layer structure), the two-epoch training loop
(call-trace semantics) and the test-set accuracy evaluation.
-/

namespace PytorchAulas

/-! ## Devices and tensors

`torch.device('cuda')` and `Tensor.to(device)`.  A tensor is modelled as a
payload together with the device it resides on; `.to` rebinds the device.
-/

inductive Device where
  | cpu : Device
  | cuda : Device
deriving DecidableEq, Repr

structure DTensor (α : Type) where
  data : α
  device : Device
deriving DecidableEq, Repr

/-- `Tensor.to(device)`: same data, placed on `d`. -/
def DTensor.to {α : Type} (t : DTensor α) (d : Device) : DTensor α :=
  { t with device := d }

/-- `device = torch.device('cuda')` -/
def device : Device := Device.cuda

/-! ## Transform pipeline

`transform = transforms.Compose([transforms.ToTensor(),
 transforms.Normalize((0.5, 0.5, 0.5), (0.5, 0.5, 0.5))])`

A raw pixel is a byte per channel; `ToTensor` scales bytes to `[0, 1]`,
`Normalize` maps each channel value `x` to `(x - mean) / std`.
-/

/-- `transforms.ToTensor()` on one 3-channel pixel: byte value `b ∈ [0,255]`
becomes `b / 255 ∈ [0,1]`. -/
def toTensorPix (raw : Fin 3 → ℕ) : Fin 3 → ℚ :=
  fun c => (raw c : ℚ) / 255

/-- `transforms.Normalize(mean, std)` pointwise on one channel value. -/
def normalizePix (mean std x : ℚ) : ℚ := (x - mean) / std

/-- `transforms.Normalize((0.5,0.5,0.5), (0.5,0.5,0.5))` on a 3-channel pixel. -/
def normalizeHalf (img : Fin 3 → ℚ) : Fin 3 → ℚ :=
  fun c => normalizePix (1/2) (1/2) (img c)

/-- The composed `transform` applied to one pixel of a dataset sample. -/
def transform (raw : Fin 3 → ℕ) : Fin 3 → ℚ :=
  normalizeHalf (toTensorPix raw)

/-- A `torchvision.datasets.CIFAR10(...)` instantiation: the arguments the
notebook passes. -/
structure CIFAR10 where
  root : String
  train : Bool
  download : Bool
  tfm : (Fin 3 → ℕ) → (Fin 3 → ℚ)

/-- `trainset = torchvision.datasets.CIFAR10(root='./data', train=True,
download=True, transform=transform)` -/
def trainset : CIFAR10 :=
  { root := "./data", train := true, download := true, tfm := transform }

/-- `testset = torchvision.datasets.CIFAR10(root='./data', train=False,
download=True, transform=transform)` -/
def testset : CIFAR10 :=
  { root := "./data", train := false, download := true, tfm := transform }

/-! ## Device transfer

`trainloader = [(inputs.to(device), labels.to(device)) for inputs, labels in trainloader]`
`testloader  = [(inputs.to(device), labels.to(device)) for inputs, labels in testloader]`
-/

/-- The list comprehension that rebinds a loader to a list of
device-transferred batches. -/
def transferLoader {I L : Type} (loader : List (DTensor I × DTensor L)) :
    List (DTensor I × DTensor L) :=
  loader.map (fun b => (b.1.to device, b.2.to device))

/-! ## Sample visualization

`torchvision.utils.make_grid(images)` arranges a batch of images into one
grid image on the same device; the arrangement itself is library code, only
the device placement matters to this repository, so the grid payload is
kept abstract as the batch payload.

```
def imshow(img):
    img = img / 2 + 0.5     # unnormalize
    npimg = img.numpy()
    plt.imshow(np.transpose(npimg, (1, 2, 0)))
```

`Tensor.numpy()` succeeds only on CPU tensors; on a CUDA tensor it raises
`TypeError`.
-/

inductive TorchError where
  | cudaTensorToNumpy : TorchError
deriving DecidableEq, Repr

/-- `torchvision.utils.make_grid`: grid of the batch, same device. -/
def makeGrid {α : Type} (images : DTensor α) : DTensor α :=
  { data := images.data, device := images.device }

/-- `img / 2 + 0.5` elementwise on one value: the unnormalize step of
`imshow`. -/
def unnormalizePix (x : ℚ) : ℚ := x / 2 + 1/2

/-- `Tensor.numpy()`: returns the payload for a CPU tensor, raises
`TypeError` for a CUDA tensor. -/
def tensorToNumpy {α : Type} (t : DTensor α) : Except TorchError α :=
  match t.device with
  | Device.cpu => Except.ok t.data
  | Device.cuda => Except.error TorchError.cudaTensorToNumpy

/-- The notebook `imshow` on an image whose payload is a list of channel
values: unnormalize (device-preserving tensor arithmetic), convert to
numpy, display.  Returns the displayed array or the raised error. -/
def imshow (img : DTensor (List ℚ)) : Except TorchError (List ℚ) := do
  let img := { img with data := img.data.map unnormalizePix }
  let npimg ← tensorToNumpy img
  pure npimg

/-! ## The model

```
class Net(nn.Module):
    def __init__(self):
        super(Net, self).__init__()
        self.conv1 = nn.Conv2d(3, 6, 5)
        self.pool = nn.MaxPool2d(2, 2)
        self.conv2 = nn.Conv2d(6, 16, 5)
        self.fc1 = nn.Linear(16 * 5 * 5, 120)
        self.fc2 = nn.Linear(120, 84)
        self.fc3 = nn.Linear(84, 10)

    def forward(self, x):
        x = self.pool(F.relu(self.conv1(x)))
        x = self.pool(F.relu(self.conv2(x)))
        x = x.view(-1, 16 * 5 * 5)
        x = F.relu(self.fc1(x))
        x = F.relu(self.fc2(x))
        x = self.fc3(x)
        return x
```

Each layer application is embedded at the level of tensor shapes (a shape
is the list of dimension sizes), which is where the reshape can fail; the
layer structure itself is embedded as the list of operations the forward
pass applies, in order.
-/

/-- One operation applied inside `Net.forward`. -/
inductive Op where
  | conv2d (inC outC k : ℕ) : Op
  | maxPool2d (k s : ℕ) : Op
  | relu : Op
  | view (m : ℕ) : Op
  | linear (inF outF : ℕ) : Op
deriving DecidableEq, Repr

/-- Whether a module of this kind carries learnable parameters
(`nn.Conv2d` and `nn.Linear` do; pooling, ReLU and reshape do not). -/
def Op.hasParams : Op → Bool
  | Op.conv2d _ _ _ => true
  | Op.linear _ _ => true
  | _ => false

/-- `numel` of a shape: product of the dimension sizes. -/
def numel (s : List ℕ) : ℕ := s.prod

/-- Shape semantics of one operation on an `N×C×H×W` (4-d) or `N×F` (2-d)
tensor; `none` is the raised framework error.

* `nn.Conv2d(inC, outC, k)` (stride 1, no padding): needs `C = inC` and a
  spatial extent of at least `k`; output spatial size `H - k + 1`.
* `nn.MaxPool2d(k, s)`: needs spatial extent at least `k`; output spatial
  size `(H - k) / s + 1`.
* `F.relu`: elementwise, shape preserved.
* `x.view(-1, m)`: needs `numel` divisible by `m`; the inferred first
  dimension is `numel / m`.
* `nn.Linear(inF, outF)`: needs `F = inF`; output features `outF`. -/
def applyOp : Op → List ℕ → Option (List ℕ)
  | Op.conv2d inC outC k, [n, c, h, w] =>
      if c = inC ∧ k ≤ h ∧ k ≤ w then some [n, outC, h - k + 1, w - k + 1]
      else none
  | Op.maxPool2d k s, [n, c, h, w] =>
      if 0 < s ∧ k ≤ h ∧ k ≤ w then some [n, c, (h - k) / s + 1, (w - k) / s + 1]
      else none
  | Op.relu, s => some s
  | Op.view m, s =>
      if m ≠ 0 ∧ numel s % m = 0 then some [numel s / m, m] else none
  | Op.linear inF outF, [n, f] =>
      if f = inF then some [n, outF] else none
  | _, _ => none

/-- The modules `Net.__init__` registers, in registration order, with the
attribute names the source gives them. -/
def netInitModules : List (String × Op) :=
  [("conv1", Op.conv2d 3 6 5),
   ("pool", Op.maxPool2d 2 2),
   ("conv2", Op.conv2d 6 16 5),
   ("fc1", Op.linear (16 * 5 * 5) 120),
   ("fc2", Op.linear 120 84),
   ("fc3", Op.linear 84 10)]

/-- The operations `Net.forward` applies, in application order:
`pool(relu(conv1 x))`, `pool(relu(conv2 x))`, `view(-1, 16*5*5)`,
`relu(fc1 x)`, `relu(fc2 x)`, `fc3 x`. -/
def netForwardOps : List Op :=
  [Op.conv2d 3 6 5, Op.relu, Op.maxPool2d 2 2,
   Op.conv2d 6 16 5, Op.relu, Op.maxPool2d 2 2,
   Op.view (16 * 5 * 5),
   Op.linear (16 * 5 * 5) 120, Op.relu,
   Op.linear 120 84, Op.relu,
   Op.linear 84 10]

/-- Run a list of operations left to right, propagating the first failure. -/
def runOps : List Op → List ℕ → Option (List ℕ)
  | [], s => some s
  | op :: ops, s =>
      match applyOp op s with
      | none => none
      | some s' => runOps ops s'

/-- Shape semantics of `Net.forward`. -/
def netForwardShape (s : List ℕ) : Option (List ℕ) :=
  runOps netForwardOps s

/-! ## Loss and optimizer

`criterion = nn.CrossEntropyLoss()`
`optimizer = optim.SGD(net.parameters(), lr=0.001, momentum=0.9)`
-/

inductive LossKind where
  | crossEntropy : LossKind
deriving DecidableEq, Repr

/-- `criterion = nn.CrossEntropyLoss()` -/
def criterion : LossKind := LossKind.crossEntropy

structure SGDConfig where
  lr : ℚ
  momentum : ℚ
deriving DecidableEq, Repr

/-- `optimizer = optim.SGD(net.parameters(), lr=0.001, momentum=0.9)` -/
def optimizer : SGDConfig := { lr := 1/1000, momentum := 9/10 }

/-! ## The training loop

```
for epoch in range(2):  # loop over the dataset multiple times
    running_loss = 0.0
    for i, data in enumerate(trainloader, 0):
        inputs, labels = data
        optimizer.zero_grad()
        outputs = net(inputs)
        loss = criterion(outputs, labels)
        loss.backward()
        optimizer.step()
        running_loss += loss.item()
        if i % 2000 == 1999:    # print every 2000 mini-batches
            print('[%d, %5d] loss: %.3f' % (epoch + 1, i + 1, running_loss / 2000))
            running_loss = 0.0
print('Finished Training')
```

The loop is embedded as the trace of calls it issues, over an abstract
model forward function `netFn : I → O` and an abstract per-batch loss
value `lossVal`; `I` is the input-batch type, `L` the label-batch type,
`O` the output type.
-/

/-- One event of the training-loop trace. -/
inductive TEvent (I L O : Type) where
  | zeroGrad : TEvent I L O
  | forwardCall (inputs : I) : TEvent I L O
  | lossCall (kind : LossKind) (outputs : O) (labels : L) : TEvent I L O
  | backwardCall : TEvent I L O
  | optStep : TEvent I L O
  | printLoss (epochNum batchNum : ℕ) (avg : ℚ) : TEvent I L O
  | printMsg (msg : String) : TEvent I L O

/-- Whether an event is a framework training call (the prints are not). -/
def TEvent.isFrameworkCall {I L O : Type} : TEvent I L O → Bool
  | TEvent.printLoss _ _ _ => false
  | TEvent.printMsg _ => false
  | _ => true

/-- The inner `for i, data in enumerate(trainloader, 0)` loop: `i` is the
running index `enumerate` supplies, `runningLoss` the accumulator. -/
def trainInner {I L O : Type} (netFn : I → O) (lossVal : I → L → ℚ)
    (epoch : ℕ) : ℕ → ℚ → List (I × L) → List (TEvent I L O)
  | _, _, [] => []
  | i, runningLoss, data :: rest =>
      let inputs := data.1
      let labels := data.2
      let outputs := netFn inputs
      let events := [TEvent.zeroGrad, TEvent.forwardCall inputs,
                     TEvent.lossCall criterion outputs labels,
                     TEvent.backwardCall, TEvent.optStep]
      let runningLoss' := runningLoss + lossVal inputs labels
      if i % 2000 = 1999 then
        events ++ TEvent.printLoss (epoch + 1) (i + 1) (runningLoss' / 2000)
          :: trainInner netFn lossVal epoch (i + 1) 0 rest
      else
        events ++ trainInner netFn lossVal epoch (i + 1) runningLoss' rest

/-- The whole training cell: `for epoch in range(2)` around the inner
loop, then the final print. -/
def trainingLoop {I L O : Type} (netFn : I → O) (lossVal : I → L → ℚ)
    (trainloader : List (I × L)) : List (TEvent I L O) :=
  (List.range 2).flatMap
      (fun epoch => trainInner netFn lossVal epoch 0 0 trainloader)
    ++ [TEvent.printMsg "Finished Training"]

/-! ## The accuracy evaluation

```
correct = 0
total = 0
with torch.no_grad():
    for data in testloader:
        images, labels = data
        outputs = net(images)
        _, predicted = torch.max(outputs.data, 1)
        total += labels.size(0)
        correct += (predicted == labels).sum().item()

print('Accuracy of the network on the 10000 test images: %d %%' % (
    100 * correct / total))
```

A batch is a list of images paired with a list of labels; the model maps
each image to its row of logits; `torch.max(outputs.data, 1)` yields the
index of the first maximal logit of each row.
-/

/-- Index scan of `torch.max(·, dim=1)` along one row: `i` is the index of
the head of the remaining list, `best`/`bestV` the best index and value so
far (ties keep the earlier index). -/
def argmaxFrom : ℕ → ℕ → ℚ → List ℚ → ℕ
  | _, best, _, [] => best
  | i, best, bestV, x :: xs =>
      if bestV < x then argmaxFrom (i + 1) i x xs
      else argmaxFrom (i + 1) best bestV xs

/-- Index of the first maximal element of a logit row. -/
def argmaxIdx : List ℚ → ℕ
  | [] => 0
  | x :: xs => argmaxFrom 1 0 x xs

/-- State of the evaluation cell: the network (read by `net(images)`) and
the two counters. -/
structure EvalState (P : Type) where
  net : P
  correct : ℕ
  total : ℕ

/-- One iteration of the evaluation loop body on a batch. -/
def evalBatch {P I : Type} (forwardF : P → I → List ℚ)
    (s : EvalState P) (data : List I × List ℕ) : EvalState P :=
  let images := data.1
  let labels := data.2
  let outputs := images.map (forwardF s.net)
  let predicted := outputs.map argmaxIdx
  { s with
    total := s.total + labels.length,
    correct := s.correct + ((predicted.zip labels).countP (fun p => p.1 = p.2)) }

/-- The `for data in testloader` loop under `torch.no_grad()`. -/
def evalLoop {P I : Type} (forwardF : P → I → List ℚ)
    (s : EvalState P) (testloader : List (List I × List ℕ)) : EvalState P :=
  testloader.foldl (evalBatch forwardF) s

/-- The accuracy the cell prints: `100 * correct / total`. -/
def accuracyOf {P I : Type} (forwardF : P → I → List ℚ) (net : P)
    (testloader : List (List I × List ℕ)) : ℚ :=
  let s := evalLoop forwardF { net := net, correct := 0, total := 0 } testloader
  100 * (s.correct : ℚ) / (s.total : ℚ)

/-! ## Error propagation

The training cell wraps no call in `try`/`except`: it is the plain
sequence `optimizer.zero_grad(); outputs = net(inputs);
loss = criterion(outputs, labels); loss.backward(); optimizer.step()`
iterated over the loader.  Each delegated framework call is modelled as a
fallible primitive; the cell is their monadic sequence, with no handler.
-/

/-- The training-loop body with every delegated framework call fallible:
`S` is the framework state (parameters, gradients, optimizer buffers),
`E` the exception type of the framework. -/
def trainStepE {S O Q E B L : Type}
    (zeroGradF : S → Except E S)
    (forwardF : S → B → Except E O)
    (lossF : O → L → Except E Q)
    (backwardF : S → Q → Except E S)
    (stepF : S → Except E S)
    (s : S) (data : B × L) : Except E S := do
  let s ← zeroGradF s
  let outputs ← forwardF s data.1
  let loss ← lossF outputs data.2
  let s ← backwardF s loss
  stepF s

/-- The inner training loop over the loader, with fallible calls. -/
def trainLoopE {S O Q E B L : Type}
    (zeroGradF : S → Except E S)
    (forwardF : S → B → Except E O)
    (lossF : O → L → Except E Q)
    (backwardF : S → Q → Except E S)
    (stepF : S → Except E S)
    (s : S) (loader : List (B × L)) : Except E S :=
  loader.foldlM (trainStepE zeroGradF forwardF lossF backwardF stepF) s

/-! ## Theorems -/

/-- C7: the transform pipeline applied to every dataset sample is
`ToTensor` followed by per-channel `Normalize` with mean and standard
deviation `0.5`; each value `x ∈ [0,1]` produced by `ToTensor` is mapped
to `(x - 0.5)/0.5 = 2x - 1 ∈ [-1,1]`, and the identical pipeline is used
for both the training and the test dataset. -/
theorem transform_pipeline_spec :
    trainset.tfm = transform ∧ testset.tfm = transform ∧
    (∀ (raw : Fin 3 → ℕ) (c : Fin 3),
      transform raw c = normalizePix (1/2) (1/2) (toTensorPix raw c)) ∧
    (∀ x : ℚ, normalizePix (1/2) (1/2) x = 2 * x - 1) ∧
    (∀ x : ℚ, 0 ≤ x → x ≤ 1 →
      -1 ≤ normalizePix (1/2) (1/2) x ∧ normalizePix (1/2) (1/2) x ≤ 1) := by
  refine ⟨rfl, rfl, fun raw c => rfl, fun x => ?_, fun x h0 h1 => ?_⟩
  · unfold normalizePix
    ring
  · have h : normalizePix (1/2) (1/2) x = 2 * x - 1 := by
      unfold normalizePix
      ring
    rw [h]
    constructor <;> linarith

/-- Witness for C7 at the concrete value `x = 3/4`. -/
theorem transform_pipeline_spec_witness :
    -1 ≤ normalizePix (1/2) (1/2) (3/4) ∧ normalizePix (1/2) (1/2) (3/4) ≤ 1 :=
  transform_pipeline_spec.2.2.2.2 (3/4) (by norm_num) (by norm_num)

/-- C8: the `img / 2 + 0.5` unnormalization in `imshow` is the exact left
inverse of the `Normalize((0.5,...), (0.5,...))` step of the transform
pipeline: for every value `x`, `((x - 0.5)/0.5)/2 + 0.5 = x`, so `imshow`
recovers the original pixel values of a normalized image (exact
arithmetic). -/
theorem unnormalize_inverts_normalize :
    (∀ x : ℚ, unnormalizePix (normalizePix (1/2) (1/2) x) = x) ∧
    (∀ img : List ℚ,
      (img.map (normalizePix (1/2) (1/2))).map unnormalizePix = img) := by
  have hpt : ∀ x : ℚ, unnormalizePix (normalizePix (1/2) (1/2) x) = x := by
    intro x
    unfold unnormalizePix normalizePix
    ring
  refine ⟨hpt, fun img => ?_⟩
  rw [List.map_map]
  simpa [Function.comp] using List.map_congr_left (fun x _ => hpt x)
    |>.trans (List.map_id img)

/-- C3: the device-transfer cell rebinds each loader to a list with the
same number of batches, in the same order, in which each batch element is
the `.to(device)` image of the original; every batch it yields resides on
the CUDA device. -/
theorem transfer_loader_spec {I L : Type} (loader : List (DTensor I × DTensor L)) :
    (transferLoader loader).length = loader.length ∧
    (∀ i : ℕ, (transferLoader loader)[i]? =
      (loader[i]?).map (fun b => (b.1.to device, b.2.to device))) ∧
    (transferLoader loader).all
      (fun b => decide (b.1.device = Device.cuda) &&
                decide (b.2.device = Device.cuda)) = true := by
  refine ⟨List.length_map _ _, fun i => ?_, ?_⟩
  · simp [transferLoader]
  · simp [transferLoader, DTensor.to, device]

/-- C4: the model is a 5-layer network built by composing library layers:
the forward pass applies, among its operations, exactly two convolutional
and three fully-connected parameterized layers, in order
`conv1, conv2, fc1, fc2, fc3` — the very modules `__init__` registers —
and every remaining operation is a (parameter-free) pooling, ReLU or
reshape. -/
theorem net_five_layers :
    netForwardOps.filter Op.hasParams =
      [Op.conv2d 3 6 5, Op.conv2d 6 16 5,
       Op.linear (16 * 5 * 5) 120, Op.linear 120 84, Op.linear 84 10] ∧
    (netForwardOps.filter Op.hasParams).length = 5 ∧
    (netForwardOps.filter Op.hasParams).countP
      (fun op => match op with | Op.conv2d _ _ _ => true | _ => false) = 2 ∧
    (netForwardOps.filter Op.hasParams).countP
      (fun op => match op with | Op.linear _ _ => true | _ => false) = 3 ∧
    (netInitModules.map Prod.snd).filter Op.hasParams =
      netForwardOps.filter Op.hasParams ∧
    netForwardOps.all
      (fun op => op.hasParams || decide (op = Op.relu) ||
        decide (op = Op.maxPool2d 2 2) ||
        decide (op = Op.view (16 * 5 * 5))) = true := by
  decide

/-- C10 counterexample: `Net.forward` is NOT well-defined only for inputs
of shape `N×3×32×32` — on the shape `1×3×33×33` (whose spatial size is not
32) every layer succeeds, the feature map entering the reshape again has
`16*5*5` elements per sample, and the output is `1×10`. -/
theorem net_forward_shape_only_counterexample :
    netForwardShape [1, 3, 33, 33] = some [1, 10] ∧ (33 : ℕ) ≠ 32 := by
  decide

/-- C10 (amended): for every input of shape `N×3×32×32`, the feature map
entering the reshape has shape `N×16×5×5` — exactly `16*5*5` elements per
sample — the `view(-1, 16*5*5)` preserves the batch size `N` (its failure
branch is not taken), and `Net.forward` produces shape `N×10`. -/
theorem net_forward_shape (n : ℕ) :
    runOps (netForwardOps.take 6) [n, 3, 32, 32] = some [n, 16, 5, 5] ∧
    numel [16, 5, 5] = 16 * 5 * 5 ∧
    applyOp (Op.view (16 * 5 * 5)) [n, 16, 5, 5] = some [n, 16 * 5 * 5] ∧
    netForwardShape [n, 3, 32, 32] = some [n, 10] := by
  have hnumel : numel [n, 16, 5, 5] = n * 400 := by
    simp [numel]
  have hview : applyOp (Op.view (16 * 5 * 5)) [n, 16, 5, 5] = some [n, 16 * 5 * 5] := by
    show (if (16 * 5 * 5 : ℕ) ≠ 0 ∧ numel [n, 16, 5, 5] % (16 * 5 * 5) = 0
          then some [numel [n, 16, 5, 5] / (16 * 5 * 5), 16 * 5 * 5] else none)
        = some [n, 16 * 5 * 5]
    rw [hnumel]
    norm_num [Nat.mul_mod_left, Nat.mul_div_cancel]
  have hpools : runOps (netForwardOps.take 6) [n, 3, 32, 32] = some [n, 16, 5, 5] := by
    norm_num [runOps, netForwardOps, applyOp]
  refine ⟨hpools, by norm_num [numel], hview, ?_⟩
  show runOps netForwardOps [n, 3, 32, 32] = some [n, 10]
  norm_num [runOps, netForwardOps, applyOp, hnumel, Nat.mul_mod_left,
    Nat.mul_div_cancel]

/-- Filtering the inner-loop trace to framework calls leaves, for each
batch in loader order, exactly the five calls of the loop body, whatever
the `enumerate` index and the `running_loss` accumulator are. -/
lemma trainInner_filter {I L O : Type} (netFn : I → O) (lossVal : I → L → ℚ)
    (epoch : ℕ) (l : List (I × L)) :
    ∀ (i : ℕ) (r : ℚ),
      (trainInner netFn lossVal epoch i r l).filter TEvent.isFrameworkCall =
        l.flatMap (fun data =>
          [TEvent.zeroGrad, TEvent.forwardCall data.1,
           TEvent.lossCall LossKind.crossEntropy (netFn data.1) data.2,
           TEvent.backwardCall, TEvent.optStep]) := by
  induction l with
  | nil => intro i r; simp [trainInner]
  | cons d rest ih =>
      intro i r
      by_cases h : i % 2000 = 1999 <;>
        simp [trainInner, h, TEvent.isFrameworkCall, criterion, ih]

/-- C1: the training cell performs exactly two epochs, each one complete
in-order pass over every batch of the training loader, and the framework
calls it issues are, per batch: zero the gradients, forward on the batch
inputs, cross-entropy loss of the outputs against the batch labels,
backward, one optimizer step — in this order and nothing else. -/
theorem training_loop_calls {I L O : Type} (netFn : I → O) (lossVal : I → L → ℚ)
    (trainloader : List (I × L)) :
    (trainingLoop netFn lossVal trainloader).filter TEvent.isFrameworkCall =
      (trainloader.flatMap (fun data =>
        [TEvent.zeroGrad, TEvent.forwardCall data.1,
         TEvent.lossCall LossKind.crossEntropy (netFn data.1) data.2,
         TEvent.backwardCall, TEvent.optStep])) ++
      (trainloader.flatMap (fun data =>
        [TEvent.zeroGrad, TEvent.forwardCall data.1,
         TEvent.lossCall LossKind.crossEntropy (netFn data.1) data.2,
         TEvent.backwardCall, TEvent.optStep])) := by
  simp [trainingLoop, List.range_succ, List.filter_append,
    trainInner_filter, TEvent.isFrameworkCall]

/-- The evaluation fold leaves the network untouched and accumulates, per
batch in loader order, the per-batch correct count and the per-batch label
count. -/
lemma evalLoop_eq {P I : Type} (forwardF : P → I → List ℚ)
    (l : List (List I × List ℕ)) :
    ∀ s : EvalState P,
      evalLoop forwardF s l =
        { net := s.net,
          correct := s.correct + (l.map (fun data =>
            (((data.1.map (forwardF s.net)).map argmaxIdx).zip data.2).countP
              (fun p => p.1 = p.2))).sum,
          total := s.total + (l.map (fun data => data.2.length)).sum } := by
  induction l with
  | nil => intro s; simp [evalLoop]
  | cons d rest ih =>
      intro s
      have step : evalLoop forwardF s (d :: rest) =
          evalLoop forwardF (evalBatch forwardF s d) rest := rfl
      rw [step, ih]
      simp [evalBatch, Nat.add_assoc]

/-- C2: the evaluation cell accumulates, over every batch of the test
loader (none skipped, none counted twice), the number of samples whose
argmax over the model output logits equals the true label and the number
of labels iterated, and prints `100 * correct / total`. -/
theorem accuracy_formula {P I : Type} (forwardF : P → I → List ℚ) (net : P)
    (testloader : List (List I × List ℕ)) :
    (evalLoop forwardF { net := net, correct := 0, total := 0 } testloader).correct =
      (testloader.map (fun data =>
        (((data.1.map (forwardF net)).map argmaxIdx).zip data.2).countP
          (fun p => p.1 = p.2))).sum ∧
    (evalLoop forwardF { net := net, correct := 0, total := 0 } testloader).total =
      (testloader.map (fun data => data.2.length)).sum ∧
    accuracyOf forwardF net testloader =
      100 * (((testloader.map (fun data =>
        (((data.1.map (forwardF net)).map argmaxIdx).zip data.2).countP
          (fun p => p.1 = p.2))).sum : ℚ)) /
        (((testloader.map (fun data => data.2.length)).sum : ℚ)) := by
  have h := evalLoop_eq forwardF testloader
    (s := { net := net, correct := 0, total := 0 })
  refine ⟨?_, ?_, ?_⟩ <;> simp [accuracyOf, h, Function.comp_def]

/-- C9: the accuracy-evaluation loop does not modify the model: the
network component of the state is unchanged between the start and the end
of the evaluation; the loop only reads it through the forward pass. -/
theorem eval_preserves_net {P I : Type} (forwardF : P → I → List ℚ)
    (s : EvalState P) (testloader : List (List I × List ℕ)) :
    (evalLoop forwardF s testloader).net = s.net := by
  simp [evalLoop_eq]

/-- C6: the script cells install no failure handling of their own: an
exception raised by any delegated framework call of the training cell —
zero-grad, forward, loss, backward or optimizer step — propagates
unchanged to the top level of the cell, at the step level and at the loop
level. -/
theorem no_failure_handling {S O Q E B L : Type}
    (zeroGradF : S → Except E S)
    (forwardF : S → B → Except E O)
    (lossF : O → L → Except E Q)
    (backwardF : S → Q → Except E S)
    (stepF : S → Except E S) :
    (∀ (s : S) (data : B × L) (e : E),
      zeroGradF s = Except.error e →
      trainStepE zeroGradF forwardF lossF backwardF stepF s data =
        Except.error e) ∧
    (∀ (s s₁ : S) (data : B × L) (e : E),
      zeroGradF s = Except.ok s₁ →
      forwardF s₁ data.1 = Except.error e →
      trainStepE zeroGradF forwardF lossF backwardF stepF s data =
        Except.error e) ∧
    (∀ (s s₁ : S) (out : O) (data : B × L) (e : E),
      zeroGradF s = Except.ok s₁ →
      forwardF s₁ data.1 = Except.ok out →
      lossF out data.2 = Except.error e →
      trainStepE zeroGradF forwardF lossF backwardF stepF s data =
        Except.error e) ∧
    (∀ (s s₁ : S) (out : O) (q : Q) (data : B × L) (e : E),
      zeroGradF s = Except.ok s₁ →
      forwardF s₁ data.1 = Except.ok out →
      lossF out data.2 = Except.ok q →
      backwardF s₁ q = Except.error e →
      trainStepE zeroGradF forwardF lossF backwardF stepF s data =
        Except.error e) ∧
    (∀ (s s₁ : S) (out : O) (q : Q) (s₂ : S) (data : B × L) (e : E),
      zeroGradF s = Except.ok s₁ →
      forwardF s₁ data.1 = Except.ok out →
      lossF out data.2 = Except.ok q →
      backwardF s₁ q = Except.ok s₂ →
      stepF s₂ = Except.error e →
      trainStepE zeroGradF forwardF lossF backwardF stepF s data =
        Except.error e) ∧
    (∀ (s : S) (data : B × L) (rest : List (B × L)) (e : E),
      trainStepE zeroGradF forwardF lossF backwardF stepF s data =
        Except.error e →
      trainLoopE zeroGradF forwardF lossF backwardF stepF s (data :: rest) =
        Except.error e) := by
  refine ⟨?_, ?_, ?_, ?_, ?_, ?_⟩
  · intro s data e hz
    simp [trainStepE, hz, Bind.bind, Except.bind]
  · intro s s₁ data e hz hf
    simp [trainStepE, hz, hf, Bind.bind, Except.bind]
  · intro s s₁ out data e hz hf hl
    simp [trainStepE, hz, hf, hl, Bind.bind, Except.bind]
  · intro s s₁ out q data e hz hf hl hb
    simp [trainStepE, hz, hf, hl, hb, Bind.bind, Except.bind]
  · intro s s₁ out q s₂ data e hz hf hl hb hs
    simp [trainStepE, hz, hf, hl, hb, hs, Bind.bind, Except.bind]
  · intro s data rest e hstep
    simp [trainLoopE, List.foldlM, hstep, Bind.bind, Except.bind]

/-- Witness for C6: a forward call that raises error `7` after a
successful zero-grad makes the whole step return exactly that error. -/
theorem no_failure_handling_witness :
    trainStepE (fun _ : Unit => Except.ok ())
      (fun (_ : Unit) (_ : Unit) => (Except.error 7 : Except ℕ Unit))
      (fun (_ : Unit) (_ : Unit) => Except.ok ())
      (fun (_ : Unit) (_ : Unit) => Except.ok ())
      (fun _ => Except.ok ()) () ((), ()) = Except.error 7 :=
  (no_failure_handling _ _ _ _ _).2.1 () () ((), ()) 7 rfl rfl

/-- C5: on the device-transferred training loader, the visualization cell
raises: every batch the transferred loader yields is CUDA-resident, so
`imshow(make_grid(images))` hits the `Tensor.numpy()` `TypeError` instead
of completing (this is the error the notebook output records). -/
theorem imshow_cuda_raises {L : Type}
    (trainloader : List (DTensor (List ℚ) × DTensor L))
    (data : DTensor (List ℚ) × DTensor L)
    (h : data ∈ transferLoader trainloader) :
    imshow (makeGrid data.1) = Except.error TorchError.cudaTensorToNumpy := by
  have hdev : data.1.device = Device.cuda := by
    rcases List.mem_map.mp h with ⟨b, _, rfl⟩
    rfl
  simp [imshow, makeGrid, tensorToNumpy, hdev, Bind.bind, Except.bind]

/-- Witness for C5: the image batch of the one-batch loader, after
transfer, makes `imshow` raise the `numpy` conversion error. -/
theorem imshow_cuda_raises_witness :
    imshow (makeGrid (⟨[0], Device.cuda⟩ : DTensor (List ℚ))) =
      Except.error TorchError.cudaTensorToNumpy :=
  imshow_cuda_raises [((⟨[0], Device.cpu⟩ : DTensor (List ℚ)),
      (⟨0, Device.cpu⟩ : DTensor ℕ))]
    ((⟨[0], Device.cuda⟩ : DTensor (List ℚ)), (⟨0, Device.cuda⟩ : DTensor ℕ))
    (by simp [transferLoader, DTensor.to, device])

end PytorchAulas
